import Mathlib

set_option linter.unnecessarySeqFocus false

/-!
Verification of the cycle-statistics core of the luna cycle-tracking app.

The embedding models calendar dates by their rata-die day number (days since
1970-01-01, proleptic Gregorian), mirroring what date-fns computes for
start-of-day dates: `parseISO` becomes `parseISOopt` (returning `none` for an
invalid date, modelling an Invalid Date), `format(d, 'yyyy-MM-dd')` becomes
`formatRD`, `differenceInDays` becomes subtraction of day numbers, and
`addDays`/`subDays` become `+`/`-` on day numbers.

Numbers are modelled as `Int`.  A JS `NaN` arising from arithmetic on an
invalid date is modelled by `Option Int` (`none`) at the points where the
source can produce it; theorems that quantify over all inputs carry a
well-formedness hypothesis on the stored date strings, matching the data
model (`date` is an ISO `yyyy-MM-dd` string).
-/

namespace Luna

/-- Convert a civil (proleptic Gregorian) date to its day number relative to
1970-01-01, following the standard era-based algorithm used by civil-date
libraries.  All divisors are positive, so `/` (`Int.ediv`) is floor division
here. -/
def daysFromCivil (y m d : Int) : Int :=
  let y1 := if m ≤ 2 then y - 1 else y
  let era := y1 / 400
  let yoe := y1 - era * 400
  let mp := if m > 2 then m - 3 else m + 9
  let doy := (153 * mp + 2) / 5 + d - 1
  let doe := yoe * 365 + yoe / 4 - yoe / 100 + doy
  era * 146097 + doe - 719468

/-- Inverse of `daysFromCivil`: recover the civil date `(year, month, day)`
from a day number relative to 1970-01-01. -/
def civilFromDays (z : Int) : Int × Int × Int :=
  let z1 := z + 719468
  let era := z1 / 146097
  let doe := z1 - era * 146097
  let yoe := (doe - doe / 1460 + doe / 36524 - doe / 146096) / 365
  let y := yoe + era * 400
  let doy := doe - (365 * yoe + yoe / 4 - yoe / 100)
  let mp := (5 * doy + 2) / 153
  let d := doy - (153 * mp + 2) / 5 + 1
  let m := if mp < 10 then mp + 3 else mp - 9
  (if m ≤ 2 then y + 1 else y, m, d)

/-- Number of days in a month, with the Gregorian leap-year rule; mirrors the
calendar-day validation performed by date-fns when parsing an ISO date. -/
def daysInMonth (y m : Int) : Int :=
  if m = 2 then
    (if (y % 4 = 0 ∧ y % 100 ≠ 0) ∨ y % 400 = 0 then 29 else 28)
  else if m = 4 ∨ m = 6 ∨ m = 9 ∨ m = 11 then 30 else 31

/-- Decimal digit as a character. -/
def digNat (n : Nat) : Char := Char.ofNat (48 + n)

/-- Zero-padded 4-digit decimal rendering (the `yyyy` format token for years
0–9999). -/
def pad4 (n : Nat) : List Char :=
  [digNat (n / 1000), digNat (n / 100 % 10), digNat (n / 10 % 10), digNat (n % 10)]

/-- Zero-padded 2-digit decimal rendering (the `MM` / `dd` format tokens). -/
def pad2 (n : Nat) : List Char :=
  [digNat (n / 10), digNat (n % 10)]

/-- Decimal rendering of the `yyyy` format token: zero-padded to four digits,
full decimal digits beyond 9999 (so the resulting date string is longer than
10 characters and never re-parses). -/
def padYear (n : Nat) : List Char :=
  if n < 10000 then pad4 n else Nat.toDigits 10 n

/-- Model of `formatDate = format(date, 'yyyy-MM-dd')` on a day number.  The
`yyyy` token of date-fns renders the *era* year — a civil year `y ≤ 0` is
emitted as `1 - y` — zero-padded to at least four digits.  Hence only dates
in civil years 1–9999 render to a string that parses back to the same day;
year-0 and negative-year dates format to a string naming a different
(era-numbered) date, exactly as the library does. -/
def formatRD (z : Int) : String :=
  let y := (civilFromDays z).1
  let m := (civilFromDays z).2.1
  let d := (civilFromDays z).2.2
  let sy := if 0 < y then y else 1 - y
  String.mk (padYear sy.toNat ++ '-' :: (pad2 m.toNat ++ '-' :: pad2 d.toNat))

/-- Numeric value of a decimal digit character. -/
def digitVal (c : Char) : Option Int :=
  if '0' ≤ c ∧ c ≤ '9' then some ((c.toNat : Int) - 48) else none

/-- Two-digit decimal parse. -/
def parse2 (a b : Char) : Option Int :=
  match digitVal a, digitVal b with
  | some x, some y => some (10 * x + y)
  | _, _ => none

/-- Four-digit decimal parse. -/
def parse4 (a b c d : Char) : Option Int :=
  match digitVal a, digitVal b, digitVal c, digitVal d with
  | some x, some y, some z, some w => some (1000 * x + 100 * y + 10 * z + w)
  | _, _, _, _ => none

/-- Model of date-fns `parseISO` restricted to the `yyyy-MM-dd` shape used
throughout the app, followed by the calendar validation date-fns performs
(month 1–12, day within the month, leap years respected).  Returns the
day number, or `none` for anything invalid (modelling an Invalid Date). -/
def parseISOopt (s : String) : Option Int :=
  match s.data with
  | [y1, y2, y3, y4, '-', m1, m2, '-', d1, d2] =>
    match parse4 y1 y2 y3 y4, parse2 m1 m2, parse2 d1 d2 with
    | some y, some m, some d =>
      if 1 ≤ m ∧ m ≤ 12 ∧ 1 ≤ d ∧ d ≤ daysInMonth y m then
        some (daysFromCivil y m d)
      else none
    | _, _, _ => none
  | _ => none

/-- The four cycle phases (types.ts `CyclePhaseType`). -/
inductive CyclePhaseType
  | menstrual
  | folicular
  | ovulatoria
  | lutea
deriving DecidableEq

/-- One day's log entry (types.ts `DayLog`).  Optional JS fields become
`Option`; tag sets become lists. -/
structure DayLog where
  date : String
  isPeriod : Bool
  intensity : Option String := none
  symptoms : List String := []
  moods : List String := []
  notes : Option String := none
  medicalNotes : Option String := none
  waterIntake : Option Int := none
  sleepHours : Option Int := none
deriving DecidableEq

/-- User settings record (types.ts `UserSettings`). -/
structure UserSettings where
  userName : Option String := none
  avgCycleLength : Int
  avgPeriodLength : Int
  lastPeriodStartManual : Option String := none
  theme : Option String := none
deriving DecidableEq

/-- Derived cycle statistics (types.ts `CycleStats`).  Nullable fields become
`Option`. -/
structure CycleStats where
  avgCycleLength : Int
  avgPeriodLength : Int
  lastPeriodStart : Option String
  nextPeriodDate : Option String
  ovulationDate : Option String
  fertileWindow : List String
  currentDayOfCycle : Option Int
deriving DecidableEq

/-- cycleUtils `getCyclePhase`: classify a day-of-cycle number into a phase.
Mirrors the source line by line: menstrual while within the average period,
then follicular strictly before `ovulationDay - 2`, ovulatory up to
`ovulationDay + 1`, luteal afterwards, with `ovulationDay = avgCycleLength - 14`. -/
def getCyclePhase (dayOfCycle : Int) (stats : CycleStats) : CyclePhaseType :=
  if dayOfCycle ≤ stats.avgPeriodLength then .menstrual
  else
    let ovulationDay := stats.avgCycleLength - 14
    if dayOfCycle < ovulationDay - 2 then .folicular
    else if dayOfCycle ≤ ovulationDay + 1 then .ovulatoria
    else .lutea

/-- JS `x || default` for a possibly-missing number: `none` (missing) and `0`
(falsy) fall back to the default; any other value, including negatives, is
kept. -/
def jsOrInt (x : Option Int) (d : Int) : Int :=
  match x with
  | some v => if v = 0 then d else v
  | none => d

/-- JS `s || null` for a possibly-missing string: `none` and the empty string
(falsy) become `none`. -/
def jsOrStr (x : Option String) : Option String :=
  match x with
  | some s => if s = "" then none else some s
  | none => none

/-- Lexicographic (code-point) order on char lists; `localeCompare ≤ 0` for the
ASCII `yyyy-MM-dd` strings compared by the source's sort. -/
def charListLe : List Char → List Char → Bool
  | [], _ => true
  | _ :: _, [] => false
  | a :: as, b :: bs => if a < b then true else if a = b then charListLe as bs else false

/-- String order used to sort period-day dates ascending. -/
def strLe (a b : String) : Bool := charListLe a.data b.data

/-- Insert into a sorted list (ascending by `strLe`). -/
def insertSorted (s : String) : List String → List String
  | [] => [s]
  | t :: ts => if strLe s t then s :: t :: ts else t :: insertSorted s ts

/-- Sort date strings ascending, modelling
`.sort((a, b) => a.date.localeCompare(b.date))`. -/
def sortDates : List String → List String
  | [] => []
  | s :: ss => insertSorted s (sortDates ss)

/-- `differenceInDays(parseISO a, parseISO b)`: `none` models the `NaN`
produced when either date is invalid. -/
def diffISO (a b : String) : Option Int :=
  match parseISOopt a, parseISOopt b with
  | some x, some y => some (x - y)
  | _, _ => none

/-- Loop state of the grouping pass of `calculateCycleStats` (lines 52–62):
`prev` is the previously visited date, `current` the group being built,
`acc` the finished groups.  A day extends the current group exactly when its
day-difference from the previous date is `=== 1`; otherwise the current group
(if non-empty) is flushed and a new group starts. -/
def groupPeriodsAux : Option String → List String → List String → List (List String) → List (List String)
  | _, [], current, acc => if current.isEmpty then acc else acc ++ [current]
  | prev, d :: rest, current, acc =>
    if (match prev with
        | some p => diffISO d p == some 1
        | none => false) then
      groupPeriodsAux (some d) rest (current ++ [d]) acc
    else
      groupPeriodsAux (some d) rest [d] (if current.isEmpty then acc else acc ++ [current])

/-- Group sorted period-day dates into contiguous runs (the `periods` array). -/
def groupPeriods (dates : List String) : List (List String) :=
  groupPeriodsAux none dates [] []

/-- Day-differences between consecutive group start dates (the
`cycleIntervals` array); `none` models a `NaN` from an invalid stored date. -/
def cycleIntervals (periods : List (List String)) : List (Option Int) :=
  (periods.zip periods.tail).map fun pq => diffISO (List.headD pq.2 "") (List.headD pq.1 "")

/-- Sum of optional values; any `none` (NaN) poisons the sum, as in JS. -/
def sumOpt (l : List (Option Int)) : Option Int :=
  l.foldl (fun acc x =>
    match acc, x with
    | some a, some b => some (a + b)
    | _, _ => none) (some 0)

/-- Total day-count of all groups (the `reduce((acc, p) => acc + p.length, 0)`). -/
def sumLens (periods : List (List String)) : Int :=
  periods.foldl (fun acc p => acc + (p.length : Int)) 0

/-- JS `Math.round(s / n)` for integer `s` and positive integer `n`:
`Math.round x = ⌊x + 1/2⌋`, i.e. `⌊(2s + n) / 2n⌋`. -/
def jsRound (s n : Int) : Int := (2 * s + n) / (2 * n)

/-- Lines 40–75 of `calculateCycleStats`: select and sort the period days,
resolve defaults from settings, then (when history exists) recompute the
average cycle length (with ≥ 2 groups), the average period length, and the
anchor as the start of the most recent group.  Returns
`(avgCycleLength, avgPeriodLength, lastPeriodStart)`.  The `none` arm of the
interval sum keeps the settings value where JS would carry a `NaN` from an
invalid stored date string; theorems about history quantify over well-formed
logs, where the arm is unreachable. -/
def baseStats (logs : List DayLog) (settings : Option UserSettings) : Int × Int × Option String :=
  let dates := sortDates ((logs.filter (·.isPeriod)).map (·.date))
  let avgCycle0 := jsOrInt (settings.map (·.avgCycleLength)) 28
  let avgPeriod0 := jsOrInt (settings.map (·.avgPeriodLength)) 5
  let last0 := jsOrStr (settings.bind (·.lastPeriodStartManual))
  if dates.isEmpty then (avgCycle0, avgPeriod0, last0)
  else
    let periods := groupPeriods dates
    let avgCycle :=
      if 1 < periods.length then
        match sumOpt (cycleIntervals periods) with
        | some s => jsRound s ((periods.length : Int) - 1)
        | none => avgCycle0
      else avgCycle0
    let avgPeriod := jsRound (sumLens periods) (periods.length : Int)
    (avgCycle, avgPeriod, some (List.headD (periods.getLastD []) ""))

/-- JS remainder `a % b` (sign follows the dividend; truncated division). -/
def jsRem (a b : Int) : Int := Int.tmod a b

/-- cycleUtils `calculateCycleStats`.  `today` is the day number of
`startOfToday()`, made explicit.  After `baseStats`, the guard
`!lastPeriodStart || !isValid(parseISO(lastPeriodStart))` is the `none` case
of `lastPeriodStart.bind parseISOopt`; with a valid anchor the predictive
fields are computed exactly as in lines 89–107, including the re-parse of the
formatted `nextPeriodDate`. -/
def calculateCycleStats (logs : List DayLog) (settings : Option UserSettings) (today : Int) : CycleStats :=
  let base := baseStats logs settings
  let avgCycleLength := base.1
  let avgPeriodLength := base.2.1
  let lastPeriodStart := base.2.2
  match lastPeriodStart.bind parseISOopt with
  | none =>
    { avgCycleLength := avgCycleLength
      avgPeriodLength := avgPeriodLength
      lastPeriodStart := none
      nextPeriodDate := none
      ovulationDate := none
      fertileWindow := []
      currentDayOfCycle := none }
  | some anchor =>
    let nextPeriodDate := formatRD (anchor + avgCycleLength)
    let ovulationDateObj := (parseISOopt nextPeriodDate).map (fun x => x - 14)
    let ovulationDate := ovulationDateObj.map formatRD
    let fertileWindow :=
      match ovulationDateObj with
      | some o => [formatRD (o - 3), formatRD (o - 2), formatRD (o - 1), formatRD o, formatRD (o + 1)]
      | none => []
    let diff := today - anchor + 1
    { avgCycleLength := avgCycleLength
      avgPeriodLength := avgPeriodLength
      lastPeriodStart := lastPeriodStart
      nextPeriodDate := some nextPeriodDate
      ovulationDate := ovulationDate
      fertileWindow := fertileWindow
      currentDayOfCycle := if 0 < diff then some (jsRem (diff - 1) avgCycleLength + 1) else none }

/-- Per-day status record returned by App.tsx `getDayStatus`. -/
structure DayStatus where
  isMenstruation : Bool
  isPredictedMenstruation : Bool
  isOvulation : Bool
  isFertile : Bool
  log : Option DayLog
  dKey : String
  phase : Option CyclePhaseType
  dayOfCycle : Option Int
deriving DecidableEq

/-- App.tsx `getDayStatus` (the calendar-day resolver): project a single date
`day` (as a day number) against the current stats and logs.  The day-of-cycle
is recomputed with the same normalization as `calculateCycleStats`; an invalid
anchor string yields a `NaN` difference in JS, whose comparisons are false,
hence `none`.  The phase is computed only when `dayOfCycle` is truthy
(non-null and non-zero). -/
def getDayStatus (day : Int) (stats : CycleStats) (logs : List DayLog) : DayStatus :=
  let dKey := formatRD day
  let log := logs.find? (fun l => l.date == dKey)
  let dayOfCycle : Option Int :=
    match stats.lastPeriodStart with
    | some s =>
      match parseISOopt s with
      | some a =>
        let diff := day - a + 1
        if 0 < diff then some (jsRem (diff - 1) stats.avgCycleLength + 1) else none
      | none => none
    | none => none
  { isMenstruation := (log.map (·.isPeriod)).getD false
    isPredictedMenstruation := stats.nextPeriodDate == some dKey
    isOvulation := stats.ovulationDate == some dKey
    isFertile := stats.fertileWindow.contains dKey
    log := log
    dKey := dKey
    phase :=
      match dayOfCycle with
      | some d => if d ≠ 0 then some (getCyclePhase d stats) else none
      | none => none
    dayOfCycle := dayOfCycle }

/-- Concrete log mapping of the grouping test: period days 2024-01-01..03 and
2024-01-29..2024-02-02. -/
def logsTwoGroups : List DayLog :=
  [{ date := "2024-01-01", isPeriod := true },
   { date := "2024-01-02", isPeriod := true },
   { date := "2024-01-03", isPeriod := true },
   { date := "2024-01-29", isPeriod := true },
   { date := "2024-01-30", isPeriod := true },
   { date := "2024-01-31", isPeriod := true },
   { date := "2024-02-01", isPeriod := true },
   { date := "2024-02-02", isPeriod := true }]

/-- Concrete log mapping of the gap-split test: period days 2024-03-01,
2024-03-02 and 2024-03-04 (03-03 not logged). -/
def logsGapSplit : List DayLog :=
  [{ date := "2024-03-01", isPeriod := true },
   { date := "2024-03-02", isPeriod := true },
   { date := "2024-03-04", isPeriod := true }]

/-- Settings with a manual anchor at 2024-01-01 and default lengths. -/
def manualAnchorSettings : UserSettings :=
  { avgCycleLength := 28, avgPeriodLength := 5, lastPeriodStartManual := some "2024-01-01" }

/-- A stats record with the default lengths (28, 5) and no derived data; used
as a concrete classifier input. -/
def defaultStats : CycleStats :=
  { avgCycleLength := 28, avgPeriodLength := 5, lastPeriodStart := none,
    nextPeriodDate := none, ovulationDate := none, fertileWindow := [],
    currentDayOfCycle := none }

/-! ### Date arithmetic lemmas -/

set_option maxHeartbeats 4000000 in
/-- Day-of-year bounds for the era-based calendar algorithm: writing
`b` for the year-of-era computed from the day-of-era `doe`, the day offset
into year `b` lies in `[0, 365]`, and reaches `365` only when the civil year
following the shifted (March-based) year `b` is a leap year. -/
theorem doyBounds (doe b : Int) (h1 : 0 ≤ doe) (h2 : doe ≤ 146096)
    (hb : b = (doe - doe / 1460 + doe / 36524 - doe / 146096) / 365) :
    0 ≤ doe - (365 * b + b / 4 - b / 100) ∧
    doe - (365 * b + b / 4 - b / 100) ≤ 365 ∧
    (doe - (365 * b + b / 4 - b / 100) = 365 →
      (b + 1) % 4 = 0 ∧ ((b + 1) % 100 ≠ 0 ∨ b + 1 = 400)) := by
  have hb0 : 0 ≤ b ∧ b ≤ 399 := by omega
  have hbr : 365 * b ≤ doe - doe / 1460 + doe / 36524 - doe / 146096 ∧
             doe - doe / 1460 + doe / 36524 - doe / 146096 < 365 * (b + 1) := by omega
  clear hb
  obtain ⟨hb1, hb2⟩ := hb0
  interval_cases b <;> omega

set_option maxHeartbeats 2000000 in
/-- Core roundtrip: `daysFromCivil` inverts `civilFromDays`, stated over the
intermediate quantities of `civilFromDays` so that each division fact is
available by name. -/
theorem rtCore (z era doe yoe doy mp m d y : Int)
    (hera : era = (z + 719468) / 146097)
    (hdoe : doe = z + 719468 - era * 146097)
    (hyoe : yoe = (doe - doe / 1460 + doe / 36524 - doe / 146096) / 365)
    (hdoy : doy = doe - (365 * yoe + yoe / 4 - yoe / 100))
    (hmp : mp = (5 * doy + 2) / 153)
    (hd : d = doy - (153 * mp + 2) / 5 + 1)
    (hm : m = if mp < 10 then mp + 3 else mp - 9)
    (hy : y = if m ≤ 2 then (yoe + era * 400) + 1 else yoe + era * 400) :
    daysFromCivil y m d = z := by
  have hdb : 0 ≤ doe ∧ doe ≤ 146096 := by
    clear hyoe hdoy hmp hd hm hy; omega
  have hyb : 0 ≤ yoe ∧ yoe ≤ 399 := by
    clear hdoy hmp hd hm hy hera hdoe; omega
  have hdoyb := doyBounds doe yoe hdb.1 hdb.2 hyoe
  rw [← hdoy] at hdoyb
  have hmpb : 0 ≤ mp ∧ mp ≤ 11 := by
    clear hm hy hd hera hdoe hdoy hyoe; omega
  rcases Int.lt_or_le mp 10 with hc | hc
  · rw [if_pos hc] at hm
    have hm3 : ¬ (m ≤ 2) := by omega
    rw [if_neg hm3] at hy
    simp only [daysFromCivil]
    rw [if_neg hm3, if_pos (show m > 2 by omega), hy]
    have h400 : (yoe + era * 400) / 400 = era := by
      clear hera hdoe hyoe hdoy hmp hd hm hy hdoyb hmpb hc hm3 hdb; omega
    rw [h400, hm]
    clear hyoe hera hyb hdb hmpb hdoyb hc hm3 hm hy
    omega
  · rw [if_neg (by omega : ¬ mp < 10)] at hm
    have hm3 : m ≤ 2 := by omega
    rw [if_pos hm3] at hy
    simp only [daysFromCivil]
    rw [if_pos hm3, if_neg (show ¬ m > 2 by omega), hy]
    have h400 : (yoe + era * 400 + 1 - 1) / 400 = era := by
      clear hera hdoe hyoe hdoy hmp hd hm hy hdoyb hmpb hc hm3 hdb; omega
    rw [h400, hm]
    clear hyoe hera hyb hdb hmpb hdoyb hc hm3 hm hy
    omega

/-- `daysFromCivil` inverts `civilFromDays` on every day number. -/
theorem daysFromCivil_civilFromDays (z : Int) :
    daysFromCivil (civilFromDays z).1 (civilFromDays z).2.1 (civilFromDays z).2.2 = z :=
  rtCore z _ _ _ _ _ _ _ _ rfl rfl rfl rfl rfl rfl rfl rfl

set_option maxHeartbeats 4000000 in
/-- The civil date produced by `civilFromDays` is always a valid calendar
date: month in 1–12 and day within the month (leap years respected). -/
theorem civilValidCore (z era doe yoe doy mp m d y : Int)
    (hera : era = (z + 719468) / 146097)
    (hdoe : doe = z + 719468 - era * 146097)
    (hyoe : yoe = (doe - doe / 1460 + doe / 36524 - doe / 146096) / 365)
    (hdoy : doy = doe - (365 * yoe + yoe / 4 - yoe / 100))
    (hmp : mp = (5 * doy + 2) / 153)
    (hd : d = doy - (153 * mp + 2) / 5 + 1)
    (hm : m = if mp < 10 then mp + 3 else mp - 9)
    (hy : y = if m ≤ 2 then (yoe + era * 400) + 1 else yoe + era * 400) :
    1 ≤ m ∧ m ≤ 12 ∧ 1 ≤ d ∧ d ≤ daysInMonth y m := by
  have hdb : 0 ≤ doe ∧ doe ≤ 146096 := by
    clear hyoe hdoy hmp hd hm hy; omega
  have hyb : 0 ≤ yoe ∧ yoe ≤ 399 := by
    clear hdoy hmp hd hm hy hera hdoe; omega
  have hdoyb := doyBounds doe yoe hdb.1 hdb.2 hyoe
  rw [← hdoy] at hdoyb
  obtain ⟨hq1, hq2, hq3⟩ := hdoyb
  have hmpb : 0 ≤ mp ∧ mp ≤ 11 := by
    clear hm hy hd hera hdoe hdoy hyoe; omega
  clear hera hdoe hyoe hdoy
  obtain ⟨hmp0, hmp1⟩ := hmpb
  interval_cases mp <;>
    (norm_num at hm hmp ⊢ <;> subst hm <;> norm_num at hy ⊢ <;>
      simp only [daysInMonth] <;> norm_num <;>
      first
        | (split_ifs <;> omega)
        | omega)

/-- `daysInMonth` never exceeds 31. -/
theorem daysInMonth_le (y m : Int) : daysInMonth y m ≤ 31 := by
  simp only [daysInMonth]
  split_ifs <;> omega

/-- `daysInMonth` is at least 28. -/
theorem daysInMonth_ge (y m : Int) : 28 ≤ daysInMonth y m := by
  simp only [daysInMonth]
  split_ifs <;> omega

/-- Parsing a rendered decimal digit returns its value. -/
theorem digitVal_digNat (n : Nat) (h : n < 10) : digitVal (digNat n) = some (n : Int) := by
  interval_cases n <;> decide

/-- Two-digit render/parse roundtrip. -/
theorem parse2_pad (n : Nat) (h : n < 100) :
    parse2 (digNat (n / 10)) (digNat (n % 10)) = some (n : Int) := by
  have h1 : n / 10 < 10 := by omega
  have h2 : n % 10 < 10 := by omega
  simp only [parse2, digitVal_digNat _ h1, digitVal_digNat _ h2]
  congr 1
  push_cast
  omega

/-- Four-digit render/parse roundtrip. -/
theorem parse4_pad (n : Nat) (h : n < 10000) :
    parse4 (digNat (n / 1000)) (digNat (n / 100 % 10)) (digNat (n / 10 % 10)) (digNat (n % 10))
      = some (n : Int) := by
  have h1 : n / 1000 < 10 := by omega
  have h2 : n / 100 % 10 < 10 := by omega
  have h3 : n / 10 % 10 < 10 := by omega
  have h4 : n % 10 < 10 := by omega
  simp only [parse4, digitVal_digNat _ h1, digitVal_digNat _ h2,
    digitVal_digNat _ h3, digitVal_digNat _ h4]
  congr 1
  push_cast
  omega

/-- Format/parse roundtrip: a day number in a civil year 1–9999 formats to an
ISO string that parses back to the same day number.  Year 0 is excluded: the
`yyyy` token era-formats it as `"0001"`, which re-parses to a different day. -/
theorem parseISOopt_formatRD (z : Int)
    (h0 : 1 ≤ (civilFromDays z).1) (h1 : (civilFromDays z).1 < 10000) :
    parseISOopt (formatRD z) = some z := by
  have hval : 1 ≤ (civilFromDays z).2.1 ∧ (civilFromDays z).2.1 ≤ 12 ∧
      1 ≤ (civilFromDays z).2.2 ∧
      (civilFromDays z).2.2 ≤ daysInMonth (civilFromDays z).1 (civilFromDays z).2.1 :=
    civilValidCore z _ _ _ _ _ _ _ _ rfl rfl rfl rfl rfl rfl rfl rfl
  have hrt := daysFromCivil_civilFromDays z
  obtain ⟨hm1, hm2, hd1, hd2⟩ := hval
  have hdle := daysInMonth_le (civilFromDays z).1 (civilFromDays z).2.1
  have hyn : ((civilFromDays z).1.toNat : Int) = (civilFromDays z).1 :=
    Int.toNat_of_nonneg (by omega)
  have hmn : ((civilFromDays z).2.1.toNat : Int) = (civilFromDays z).2.1 :=
    Int.toNat_of_nonneg (by omega)
  have hdn : ((civilFromDays z).2.2.toNat : Int) = (civilFromDays z).2.2 :=
    Int.toNat_of_nonneg (by omega)
  have hyn' : (civilFromDays z).1.toNat < 10000 := by omega
  have hmn' : (civilFromDays z).2.1.toNat < 100 := by omega
  have hdn' : (civilFromDays z).2.2.toNat < 100 := by omega
  simp only [formatRD]
  rw [if_pos (show (0 : Int) < (civilFromDays z).1 by omega)]
  simp only [padYear]
  rw [if_pos hyn']
  simp only [parseISOopt, pad4, pad2, List.cons_append, List.nil_append]
  simp only [parse4_pad _ hyn', parse2_pad _ hmn', parse2_pad _ hdn']
  rw [hyn, hmn, hdn]
  rw [if_pos (And.intro hm1 (And.intro hm2 (And.intro hd1 hd2)))]
  exact congrArg some hrt

/-- Era formatting at the boundary: a civil year-0 date formats with the
`yyyy` token as era year 1, and the resulting string re-parses to the
corresponding year-1 day — a different day number.  This is why the
format/parse roundtrip (and the prediction-field claim that rests on it)
holds only from civil year 1 on. -/
theorem formatRD_eraYear :
    formatRD (daysFromCivil 0 6 29) = "0001-06-29" ∧
    parseISOopt "0001-06-29" = some (daysFromCivil 1 6 29) ∧
    daysFromCivil 1 6 29 ≠ daysFromCivil 0 6 29 := by
  decide

/-! ### Stats engine shape lemmas -/

/-- Both branches of `calculateCycleStats` return the lengths resolved by
`baseStats`. -/
theorem calc_lengths (logs : List DayLog) (settings : Option UserSettings) (today : Int) :
    (calculateCycleStats logs settings today).avgCycleLength = (baseStats logs settings).1 ∧
    (calculateCycleStats logs settings today).avgPeriodLength = (baseStats logs settings).2.1 := by
  cases h : ((baseStats logs settings).2.2).bind parseISOopt <;>
    simp [calculateCycleStats, h]

/-- When the resolved anchor is missing or does not parse to a valid date,
`calculateCycleStats` returns the early record: resolved lengths, all
predictive fields null/empty. -/
theorem calc_noAnchor (logs : List DayLog) (settings : Option UserSettings) (today : Int)
    (h : ((baseStats logs settings).2.2).bind parseISOopt = none) :
    calculateCycleStats logs settings today =
      { avgCycleLength := (baseStats logs settings).1
        avgPeriodLength := (baseStats logs settings).2.1
        lastPeriodStart := none
        nextPeriodDate := none
        ovulationDate := none
        fertileWindow := []
        currentDayOfCycle := none } := by
  simp [calculateCycleStats, h]

/-- When the resolved anchor is the string `s` parsing to day number `a`,
`calculateCycleStats` returns the record computed by lines 89–107 of the
source. -/
theorem calc_anchor (logs : List DayLog) (settings : Option UserSettings) (today : Int)
    (s : String) (a : Int)
    (hs : (baseStats logs settings).2.2 = some s)
    (ha : parseISOopt s = some a) :
    calculateCycleStats logs settings today =
      { avgCycleLength := (baseStats logs settings).1
        avgPeriodLength := (baseStats logs settings).2.1
        lastPeriodStart := some s
        nextPeriodDate := some (formatRD (a + (baseStats logs settings).1))
        ovulationDate :=
          ((parseISOopt (formatRD (a + (baseStats logs settings).1))).map
            (fun x => x - 14)).map formatRD
        fertileWindow :=
          match (parseISOopt (formatRD (a + (baseStats logs settings).1))).map
              (fun x => x - 14) with
          | some o => [formatRD (o - 3), formatRD (o - 2), formatRD (o - 1),
              formatRD o, formatRD (o + 1)]
          | none => []
        currentDayOfCycle :=
          if 0 < today - a + 1 then
            some (jsRem (today - a + 1 - 1) (baseStats logs settings).1 + 1)
          else none } := by
  simp [calculateCycleStats, hs, ha]

/-! ### Claim theorems -/

/-- C1 (counterexample): with `avgPeriodLength = 5` and `avgCycleLength = 28`
(so `ovulationDay = 14`), the classifier maps day 12 to the ovulatory phase,
not the follicular phase claimed by the spec: day 12 fails the strict test
`12 < ovulationDay - 2 = 12` and falls through to `12 ≤ ovulationDay + 1 = 15`. -/
theorem getCyclePhase_day12_ovulatory :
    getCyclePhase 12 defaultStats = CyclePhaseType.ovulatoria ∧
    ¬ getCyclePhase 12 defaultStats = CyclePhaseType.folicular := by
  decide

/-- C1 (amended): for every stats record with `avgPeriodLength = 5` and
`avgCycleLength = 28` (so `ovulationDay = 14`), `classifyPhase` returns:
menstrual for day 5; follicular for day 6; ovulatory for day 12 (not
follicular); ovulatory for day 13; ovulatory for day 15; luteal for day 16. -/
theorem getCyclePhase_boundaries (stats : CycleStats)
    (hp : stats.avgPeriodLength = 5) (hc : stats.avgCycleLength = 28) :
    getCyclePhase 5 stats = CyclePhaseType.menstrual ∧
    getCyclePhase 6 stats = CyclePhaseType.folicular ∧
    getCyclePhase 12 stats = CyclePhaseType.ovulatoria ∧
    getCyclePhase 13 stats = CyclePhaseType.ovulatoria ∧
    getCyclePhase 15 stats = CyclePhaseType.ovulatoria ∧
    getCyclePhase 16 stats = CyclePhaseType.lutea := by
  simp only [getCyclePhase, hp, hc]
  norm_num

/-- C1 (witness): the amended boundary behaviour at the concrete default
stats record. -/
theorem getCyclePhase_boundaries_witness :
    defaultStats.avgPeriodLength = 5 ∧ defaultStats.avgCycleLength = 28 ∧
    (getCyclePhase 5 defaultStats = CyclePhaseType.menstrual ∧
     getCyclePhase 6 defaultStats = CyclePhaseType.folicular ∧
     getCyclePhase 12 defaultStats = CyclePhaseType.ovulatoria ∧
     getCyclePhase 13 defaultStats = CyclePhaseType.ovulatoria ∧
     getCyclePhase 15 defaultStats = CyclePhaseType.ovulatoria ∧
     getCyclePhase 16 defaultStats = CyclePhaseType.lutea) :=
  ⟨by decide, by decide, getCyclePhase_boundaries defaultStats (by decide) (by decide)⟩

/-- C2: on the log mapping with period days 2024-01-01..03 and
2024-01-29..2024-02-02, the engine forms exactly 2 contiguous groups and
returns `avgPeriodLength = round((3+5)/2) = 4`, `avgCycleLength = 28` (the
day difference between the two group starts), and
`lastPeriodStart = 2024-01-29`. -/
theorem calculateCycleStats_twoGroups :
    (groupPeriods (sortDates ((logsTwoGroups.filter (·.isPeriod)).map (·.date)))).length = 2 ∧
    (calculateCycleStats logsTwoGroups none 0).avgPeriodLength = 4 ∧
    (calculateCycleStats logsTwoGroups none 0).avgCycleLength = 28 ∧
    (calculateCycleStats logsTwoGroups none 0).lastPeriodStart = some "2024-01-29" := by
  decide

/-- C8: on the log mapping with period days 2024-03-01, 2024-03-02 and
2024-03-04, the grouping pass produces two groups of lengths 2 and 1 (the
single skipped day 2024-03-03 starts a new group), not one group of
length 3. -/
theorem groupPeriods_gapSplit :
    groupPeriods (sortDates ((logsGapSplit.filter (·.isPeriod)).map (·.date)))
      = [["2024-03-01", "2024-03-02"], ["2024-03-04"]] ∧
    (groupPeriods (sortDates ((logsGapSplit.filter (·.isPeriod)).map (·.date)))).map
        List.length = [2, 1] := by
  decide

/-- C10: for every day-of-cycle ≥ 1 and every stats record with
`avgCycleLength ≤ 17`, the classifier never returns the follicular phase:
`ovulationDay - 2 = avgCycleLength - 16 ≤ 1`, so no positive day satisfies
the strict follicular test. -/
theorem getCyclePhase_noFollicular (d : Int) (stats : CycleStats)
    (h1 : 1 ≤ d) (h2 : stats.avgCycleLength ≤ 17) :
    ¬ getCyclePhase d stats = CyclePhaseType.folicular := by
  simp only [getCyclePhase]
  split_ifs with ha hb hc <;> simp <;> omega

/-- C10 (witness): day 1 with a 17-day cycle length is not classified
follicular. -/
theorem getCyclePhase_noFollicular_witness :
    (1 : Int) ≥ 1 ∧
    ({ defaultStats with avgCycleLength := 17 } : CycleStats).avgCycleLength ≤ 17 ∧
    ¬ getCyclePhase 1 { defaultStats with avgCycleLength := 17 } = CyclePhaseType.folicular :=
  ⟨by decide, by decide,
    getCyclePhase_noFollicular 1 { defaultStats with avgCycleLength := 17 }
      (by decide) (by decide)⟩

/-- C7 (counterexample): `calculateCycleStats` reads the evaluation-time
clock (`startOfToday`), so two calls with identical logs and settings but a
different current date give different stats: with the single period day
2024-01-01, evaluating on 2024-01-01 and 2024-01-02 yields
`currentDayOfCycle` 1 and 2 respectively. -/
theorem calculateCycleStats_todayDependent :
    calculateCycleStats [{ date := "2024-01-01", isPeriod := true }] none 19723
      ≠ calculateCycleStats [{ date := "2024-01-01", isPeriod := true }] none 19724 := by
  decide

/-- C7 (amended): `calculateCycleStats` is a pure function of the logs, the
settings and the evaluation date, and every field except `currentDayOfCycle`
depends only on the logs and settings: evaluating at two different dates
changes at most `currentDayOfCycle`. -/
theorem calculateCycleStats_pureExceptToday (logs : List DayLog)
    (settings : Option UserSettings) (t1 t2 : Int) :
    (calculateCycleStats logs settings t1).avgCycleLength
      = (calculateCycleStats logs settings t2).avgCycleLength ∧
    (calculateCycleStats logs settings t1).avgPeriodLength
      = (calculateCycleStats logs settings t2).avgPeriodLength ∧
    (calculateCycleStats logs settings t1).lastPeriodStart
      = (calculateCycleStats logs settings t2).lastPeriodStart ∧
    (calculateCycleStats logs settings t1).nextPeriodDate
      = (calculateCycleStats logs settings t2).nextPeriodDate ∧
    (calculateCycleStats logs settings t1).ovulationDate
      = (calculateCycleStats logs settings t2).ovulationDate ∧
    (calculateCycleStats logs settings t1).fertileWindow
      = (calculateCycleStats logs settings t2).fertileWindow := by
  cases h : ((baseStats logs settings).2.2).bind parseISOopt with
  | none =>
    rw [calc_noAnchor logs settings t1 h, calc_noAnchor logs settings t2 h]
    exact ⟨rfl, rfl, rfl, rfl, rfl, rfl⟩
  | some a =>
    obtain ⟨s, hs, ha⟩ := Option.bind_eq_some.mp h
    rw [calc_anchor logs settings t1 s a hs ha, calc_anchor logs settings t2 s a hs ha]
    exact ⟨rfl, rfl, rfl, rfl, rfl, rfl⟩

/-- C9: falsy settings fields are replaced by the defaults before any use: a
zero `avgCycleLength` behaves as 28, a zero `avgPeriodLength` behaves as 5,
an empty-string manual anchor behaves as no anchor, and absent settings
behave as the default record — so a zero length from settings never reaches
any derived field. -/
theorem calculateCycleStats_falsyDefaults (logs : List DayLog) (today : Int)
    (u th lm : Option String) (p c : Int) :
    calculateCycleStats logs (some ⟨u, 0, p, lm, th⟩) today
      = calculateCycleStats logs (some ⟨u, 28, p, lm, th⟩) today ∧
    calculateCycleStats logs (some ⟨u, c, 0, lm, th⟩) today
      = calculateCycleStats logs (some ⟨u, c, 5, lm, th⟩) today ∧
    calculateCycleStats logs (some ⟨u, c, p, some "", th⟩) today
      = calculateCycleStats logs (some ⟨u, c, p, none, th⟩) today ∧
    calculateCycleStats logs none today
      = calculateCycleStats logs (some ⟨none, 28, 5, none, none⟩) today := by
  have h1 : baseStats logs (some ⟨u, 0, p, lm, th⟩) = baseStats logs (some ⟨u, 28, p, lm, th⟩) := by
    simp [baseStats, jsOrInt]
  have h2 : baseStats logs (some ⟨u, c, 0, lm, th⟩) = baseStats logs (some ⟨u, c, 5, lm, th⟩) := by
    simp [baseStats, jsOrInt]
  have h3 : baseStats logs (some ⟨u, c, p, some "", th⟩) = baseStats logs (some ⟨u, c, p, none, th⟩) := by
    simp [baseStats, jsOrStr]
  have h4 : baseStats logs none = baseStats logs (some ⟨none, 28, 5, none, none⟩) := by
    simp [baseStats, jsOrInt, jsOrStr]
  refine ⟨?_, ?_, ?_, ?_⟩ <;>
    simp only [calculateCycleStats, h1, h2, h3, h4]

/-- C5: whenever no anchor is resolvable — the resolved anchor is missing or
its string does not parse to a valid calendar date — the engine returns null
`lastPeriodStart`, `nextPeriodDate`, `ovulationDate`, an empty
`fertileWindow` and null `currentDayOfCycle`, keeping the lengths resolved
from history or settings; and with no logged period day the lengths are
exactly the settings values with the 28/5 fallbacks. -/
theorem calculateCycleStats_insufficientData (logs : List DayLog)
    (settings : Option UserSettings) (today : Int)
    (h : ((baseStats logs settings).2.2).bind parseISOopt = none) :
    calculateCycleStats logs settings today =
      { avgCycleLength := (baseStats logs settings).1
        avgPeriodLength := (baseStats logs settings).2.1
        lastPeriodStart := none
        nextPeriodDate := none
        ovulationDate := none
        fertileWindow := []
        currentDayOfCycle := none } ∧
    ((logs.filter (·.isPeriod)).map (·.date) = [] →
      (baseStats logs settings).1 = jsOrInt (settings.map (·.avgCycleLength)) 28 ∧
      (baseStats logs settings).2.1 = jsOrInt (settings.map (·.avgPeriodLength)) 5 ∧
      (baseStats logs settings).2.2 = jsOrStr (settings.bind (·.lastPeriodStartManual))) := by
  refine ⟨calc_noAnchor logs settings today h, fun he => ?_⟩
  simp [baseStats, he, sortDates]

/-- C5 (witness): with no logs and no settings the engine returns the default
lengths and all predictive fields null. -/
theorem calculateCycleStats_insufficientData_witness :
    ((baseStats [] none).2.2).bind parseISOopt = none ∧
    calculateCycleStats [] none 0 =
      { avgCycleLength := 28, avgPeriodLength := 5, lastPeriodStart := none,
        nextPeriodDate := none, ovulationDate := none, fertileWindow := [],
        currentDayOfCycle := none } :=
  ⟨by decide,
   ((calculateCycleStats_insufficientData [] none 0 (by decide)).1).trans (by decide)⟩

/-- C4: with a resolvable anchor `a` and positive `avgCycleLength`, the
current day-of-cycle is null exactly when `diff = (today - anchor) + 1 ≤ 0`
(anchor strictly in the future), and otherwise equals
`((diff - 1) mod avgCycleLength) + 1`, which lies in `[1, avgCycleLength]`. -/
theorem calculateCycleStats_dayOfCycle (logs : List DayLog)
    (settings : Option UserSettings) (today : Int) (s : String) (a : Int)
    (hs : (baseStats logs settings).2.2 = some s)
    (ha : parseISOopt s = some a)
    (hpos : 1 ≤ (baseStats logs settings).1) :
    ((calculateCycleStats logs settings today).currentDayOfCycle = none ↔
      today - a + 1 ≤ 0) ∧
    (0 < today - a + 1 →
      (calculateCycleStats logs settings today).currentDayOfCycle
        = some ((today - a) % (baseStats logs settings).1 + 1)) ∧
    (∀ v, (calculateCycleStats logs settings today).currentDayOfCycle = some v →
      1 ≤ v ∧ v ≤ (baseStats logs settings).1) := by
  rw [calc_anchor logs settings today s a hs ha]
  dsimp only
  have harg : today - a + 1 - 1 = today - a := by ring
  refine ⟨?_, ?_, ?_⟩
  · split_ifs with h <;> simp <;> omega
  · intro h
    rw [if_pos h, harg]
    simp only [jsRem]
    rw [Int.tmod_eq_emod (by omega) (by omega)]
  · intro v hv
    by_cases h : 0 < today - a + 1
    · rw [if_pos h, harg] at hv
      simp only [jsRem, Option.some.injEq] at hv
      rw [Int.tmod_eq_emod (by omega) (by omega)] at hv
      have h1 := Int.emod_nonneg (today - a)
        (show (baseStats logs settings).1 ≠ 0 by omega)
      have h2 := Int.emod_lt_of_pos (today - a)
        (show 0 < (baseStats logs settings).1 by omega)
      omega
    · rw [if_neg h] at hv
      cases hv

/-- C4 (witness): with a manual anchor 2024-01-01 and a 28-day cycle,
evaluating on 2024-01-29 (day number 19751, `diff = 29`) wraps to
day-of-cycle 1, not 29. -/
theorem calculateCycleStats_dayOfCycle_witness :
    ((baseStats [] (some manualAnchorSettings)).2.2 = some "2024-01-01" ∧
     parseISOopt "2024-01-01" = some 19723 ∧
     1 ≤ (baseStats [] (some manualAnchorSettings)).1) ∧
    ((0 : Int) < 19751 - 19723 + 1 →
      (calculateCycleStats [] (some manualAnchorSettings) 19751).currentDayOfCycle
        = some ((19751 - 19723) % (baseStats [] (some manualAnchorSettings)).1 + 1)) ∧
    (calculateCycleStats [] (some manualAnchorSettings) 19751).currentDayOfCycle = some 1 :=
  ⟨⟨by decide, by decide, by decide⟩,
   (calculateCycleStats_dayOfCycle [] (some manualAnchorSettings) 19751 "2024-01-01" 19723
      (by decide) (by decide) (by decide)).2.1,
   by decide⟩

/-- C6: on any evaluation date, the calendar-day resolver recomputes exactly
the day-of-cycle that the stats engine stored for that date, and its phase is
the classifier applied to that day-of-cycle — the grid and the "today"
summary can never disagree. -/
theorem getDayStatus_consistent (logs : List DayLog) (settings : Option UserSettings)
    (day : Int) :
    (getDayStatus day (calculateCycleStats logs settings day) logs).dayOfCycle
      = (calculateCycleStats logs settings day).currentDayOfCycle ∧
    (getDayStatus day (calculateCycleStats logs settings day) logs).phase
      = ((calculateCycleStats logs settings day).currentDayOfCycle).map
          (fun d => getCyclePhase d (calculateCycleStats logs settings day)) := by
  cases h : ((baseStats logs settings).2.2).bind parseISOopt with
  | none =>
    rw [calc_noAnchor logs settings day h]
    simp [getDayStatus]
  | some a =>
    obtain ⟨s, hs, ha⟩ := Option.bind_eq_some.mp h
    rw [calc_anchor logs settings day s a hs ha]
    constructor
    · simp [getDayStatus, ha]
    · simp only [getDayStatus, ha]
      by_cases hD : 0 < day - a + 1
      · rw [if_pos hD]
        dsimp only
        have hnn : 0 ≤ jsRem (day - a + 1 - 1) (baseStats logs settings).1 :=
          Int.tmod_nonneg _ (by omega)
        rw [if_pos (show jsRem (day - a + 1 - 1) (baseStats logs settings).1 + 1 ≠ 0 by omega)]
        simp
      · rw [if_neg hD]
        simp

/-- C3: whenever the engine resolves a valid anchor `a` and the predicted
date falls in a civil year 1–9999, the returned stats satisfy
`nextPeriodDate = anchor + avgCycleLength` days,
`ovulationDate = nextPeriodDate - 14` days, and `fertileWindow` is exactly
the 5 consecutive dates from `ovulationDate - 3` through `ovulationDate + 1`,
with `ovulationDate` as its 4th entry.  Year ≤ 0 predictions are excluded:
there the `yyyy` format token era-renders the year, so the emitted
`nextPeriodDate` string names a different date and the re-parse shifts the
derived fields. -/
theorem calculateCycleStats_predictions (logs : List DayLog)
    (settings : Option UserSettings) (today : Int) (s : String) (a : Int)
    (hs : (baseStats logs settings).2.2 = some s)
    (ha : parseISOopt s = some a)
    (hy0 : 1 ≤ (civilFromDays (a + (baseStats logs settings).1)).1)
    (hy1 : (civilFromDays (a + (baseStats logs settings).1)).1 < 10000) :
    (calculateCycleStats logs settings today).nextPeriodDate
      = some (formatRD (a + (baseStats logs settings).1)) ∧
    (calculateCycleStats logs settings today).ovulationDate
      = some (formatRD (a + (baseStats logs settings).1 - 14)) ∧
    (calculateCycleStats logs settings today).fertileWindow
      = [formatRD (a + (baseStats logs settings).1 - 17),
         formatRD (a + (baseStats logs settings).1 - 16),
         formatRD (a + (baseStats logs settings).1 - 15),
         formatRD (a + (baseStats logs settings).1 - 14),
         formatRD (a + (baseStats logs settings).1 - 13)] ∧
    ((calculateCycleStats logs settings today).fertileWindow).length = 5 ∧
    List.get? ((calculateCycleStats logs settings today).fertileWindow) 3
      = (calculateCycleStats logs settings today).ovulationDate := by
  have hrt := parseISOopt_formatRD (a + (baseStats logs settings).1) hy0 hy1
  rw [calc_anchor logs settings today s a hs ha]
  simp only [hrt, Option.map_some']
  have e1 : a + (baseStats logs settings).1 - 14 - 3
      = a + (baseStats logs settings).1 - 17 := by ring
  have e2 : a + (baseStats logs settings).1 - 14 - 2
      = a + (baseStats logs settings).1 - 16 := by ring
  have e3 : a + (baseStats logs settings).1 - 14 - 1
      = a + (baseStats logs settings).1 - 15 := by ring
  have e4 : a + (baseStats logs settings).1 - 14 + 1
      = a + (baseStats logs settings).1 - 13 := by ring
  rw [e1, e2, e3, e4]
  exact ⟨trivial, trivial, rfl, rfl, rfl⟩

/-- C3 (witness): with a manual anchor 2024-01-01 and the default 28-day
cycle, the predictions are 2024-01-29 (next period), 2024-01-15 (ovulation)
and the fertile window 2024-01-12 … 2024-01-16 with ovulation as its 4th
entry. -/
theorem calculateCycleStats_predictions_witness :
    ((baseStats [] (some manualAnchorSettings)).2.2 = some "2024-01-01" ∧
     parseISOopt "2024-01-01" = some 19723 ∧
     1 ≤ (civilFromDays (19723 + (baseStats [] (some manualAnchorSettings)).1)).1 ∧
     (civilFromDays (19723 + (baseStats [] (some manualAnchorSettings)).1)).1 < 10000) ∧
    (calculateCycleStats [] (some manualAnchorSettings) 0).nextPeriodDate
      = some "2024-01-29" ∧
    (calculateCycleStats [] (some manualAnchorSettings) 0).ovulationDate
      = some "2024-01-15" ∧
    (calculateCycleStats [] (some manualAnchorSettings) 0).fertileWindow
      = ["2024-01-12", "2024-01-13", "2024-01-14", "2024-01-15", "2024-01-16"] ∧
    ((calculateCycleStats [] (some manualAnchorSettings) 0).fertileWindow).length = 5 ∧
    List.get? ((calculateCycleStats [] (some manualAnchorSettings) 0).fertileWindow) 3
      = (calculateCycleStats [] (some manualAnchorSettings) 0).ovulationDate := by
  have h := calculateCycleStats_predictions [] (some manualAnchorSettings) 0
    "2024-01-01" 19723 (by decide) (by decide) (by decide) (by decide)
  exact ⟨⟨by decide, by decide, by decide, by decide⟩,
    h.1.trans (by decide), h.2.1.trans (by decide), h.2.2.1.trans (by decide),
    h.2.2.2.1, h.2.2.2.2⟩

end Luna
